import Mathlib

/-!
Shallow embedding of `src/main.rs` of batsignal-rust: the battery data model,
`Settings::validate`, the per-cycle charge aggregation and state decision of
`main`, and the `notify_cmd` dispatch.  Machine integers (`i32`) are modelled
as `Int` (or `Nat` for the non-negative energy counters of the data model);
the floating-point percentage computation is modelled exactly, see
`roundF64` below.
-/

namespace Batsignal

/-- Alert states, from the `State` enum in the source. -/
inductive State where
  | Charging
  | Discharging
  | Warning
  | Critical
  | Danger
  | Full
deriving DecidableEq

/-- Battery status strings, from the `BatteryStatus` enum in the source. -/
inductive BatteryStatus where
  | Unknown
  | Charging
  | Discharging
  | NotCharging
  | Full
deriving DecidableEq

/-- One battery reading, from the `Battery` struct in the source.  The source
stores the energy counters as `i32`; readings parsed from sysfs are
non-negative (the spec data model: "non-negative integers"), so they are
modelled as `Nat`. -/
structure Battery where
  name : String
  status : BatteryStatus
  energy_full : Nat
  energy_now : Nat
deriving DecidableEq

/-- Notification timeout, from `notify_rust::Timeout` (the source only uses
`Never` and `Default`). -/
inductive Timeout where
  | Never
  | Default
  | Milliseconds (ms : Nat)
deriving DecidableEq

/-- The `Settings` struct from the source. -/
structure Settings where
  daemonize : Bool
  run_once : Bool
  batteries : List Battery
  sleep_interval : Int
  warning : Option Int
  critical : Option Int
  danger : Option Int
  full : Option Int
  warningmsg : String
  criticalmsg : String
  fullmsg : String
  dangercmd : Option String
  appname : String
  icon : Option String
  notification_timeout : Timeout
deriving DecidableEq

/-- Model of `Settings::default()` from the source. -/
def Settings.default : Settings where
  daemonize := true
  run_once := false
  batteries := []
  sleep_interval := 60
  warning := some 15
  critical := some 5
  danger := some 2
  full := none
  warningmsg := "Battery is low"
  criticalmsg := "Battery is critically low"
  fullmsg := "Battery is full"
  dangercmd := none
  appname := "batsignal"
  icon := none
  notification_timeout := Timeout.Never

/-- The errors `Settings::validate` can return (the source formats them as
`anyhow` message strings; the three distinct shapes are kept structured). -/
inductive ConfigError where
  | outOfRange (opt : String) (hi : Int)
  | warningLeCritical
  | notMonotonic (offender reference : String)
deriving DecidableEq

/-- Result of `Settings::validate`: `ok` is `Ok(self)`, `err` is an `Err`,
and `panicEmpty` is the `unwrap()` panic on the first element of the filtered
threshold iterator when the iterator is empty. -/
inductive VResult where
  | ok (s : Settings)
  | err (e : ConfigError)
  | panicEmpty
deriving DecidableEq

/-- Range test `(0..=100).contains(&v)` applied to an optional threshold: the
source checks the range only when the option is set. -/
def okRange (o : Option Int) : Bool :=
  match o with
  | some v => 0 ≤ v && v ≤ 100
  | none => true

/-- Condition of the `warning <= critical` check in `Settings::validate`,
performed only when both are set. -/
def warningLeCrit (s : Settings) : Bool :=
  match s.warning, s.critical with
  | some w, some c => w ≤ c
  | _, _ => false

/-- The `(name, value)` pairs of the set thresholds, in the fixed order
danger, critical, warning, full (the `filter_map` in `Settings::validate`). -/
def thresholdPairs (s : Settings) : List (String × Int) :=
  ([("danger", s.danger), ("critical", s.critical), ("warning", s.warning),
    ("full", s.full)]).filterMap (fun p => p.2.map (fun v => (p.1, v)))

/-- The monotone scan of `Settings::validate`: `greatest` starts at the first
pair; each later pair must be `>=` the running `greatest` and then becomes
the new `greatest`; on failure the offending name and the reference name are
returned (in that order, matching the source's error message). -/
def scanPairs : String × Int → List (String × Int) → Option (String × String)
  | _, [] => none
  | g, v :: rest => if v.2 ≥ g.2 then scanPairs v rest else some (v.1, g.1)

/-- Model of `Settings::validate`, check for check in source order.  Note that
the source range-checks `warning`, `critical` and `full` but never `danger`,
and that `VResult.panicEmpty` models the `unwrap()` that panics when every
threshold is unset. -/
def Settings.validate (s : Settings) : VResult :=
  if !okRange s.warning then .err (.outOfRange "w" 100)
  else if !okRange s.critical then .err (.outOfRange "c" 100)
  else if !okRange s.full then .err (.outOfRange "f" 100)
  else if s.sleep_interval < 0 then .err (.outOfRange "m" (2147483647 / 1000))
  else if warningLeCrit s then .err .warningLeCritical
  else
    match thresholdPairs s with
    | [] => .panicEmpty
    | g :: rest =>
      match scanPairs g rest with
      | some (off, ref) => .err (.notMonotonic off ref)
      | none => .ok s

/-- Candidate `(state, level)` pairs of the discharging branch of `main`,
after the `filter_map` keeps the set levels; `(Discharging, 100)` is always
present and always first. -/
def candidates (s : Settings) : List (State × Int) :=
  ([(State.Discharging, some 100), (State.Warning, s.warning),
    (State.Critical, s.critical), (State.Danger, s.danger)]).filterMap
    (fun p => p.2.map (fun v => (p.1, v)))

/-- The candidates after the always-present head `(Discharging, 100)`. -/
def candTail (s : Settings) : List (State × Int) :=
  ([(State.Warning, s.warning), (State.Critical, s.critical),
    (State.Danger, s.danger)]).filterMap (fun p => p.2.map (fun v => (p.1, v)))

/-- One step of the `reduce` closure in the discharging branch of `main`:
replace the accumulator by the item when
`charge_percent <= item.1 && item.1 <= accum.1`. -/
def reduceStep (pct : Int) (accum item : State × Int) : State × Int :=
  if pct ≤ item.2 ∧ item.2 ≤ accum.2 then item else accum

/-- The discharging branch of `main`.  Rust's `Iterator::reduce` takes the
first element as the accumulator and folds over the rest; the first candidate
is always `(Discharging, 100)` (its level is `Some(100)` unconditionally), so
`reduce` is the fold of `candTail` started at `(Discharging, 100)`. -/
def dischargeSelect (s : Settings) (pct : Int) : State × Int :=
  (candTail s).foldl (reduceStep pct) (State.Discharging, 100)

/-- The `.0` projection ending the discharging branch of `main`. -/
def dischargeNewState (s : Settings) (pct : Int) : State :=
  (dischargeSelect s pct).1

/-- The non-discharging branch of `main`: `Full` when a full threshold is set
and `charge_percent >= full`, else `Charging`. -/
def chargeNewState (s : Settings) (pct : Int) : State :=
  match s.full with
  | some f => if pct ≥ f then State.Full else State.Charging
  | none => State.Charging

/-- The whole per-cycle `new_state` decision of `main`. -/
def newState (s : Settings) (discharging : Bool) (pct : Int) : State :=
  if discharging then dischargeNewState s pct else chargeNewState s pct

/-- Severity ranking from the spec's glossary:
Danger > Critical > Warning > Discharging/Charging. -/
def severity : State → Nat
  | .Charging => 0
  | .Discharging => 1
  | .Warning => 2
  | .Critical => 3
  | .Danger => 4
  | .Full => 5

/-- Modelled from the spec (refinement target for the discharging branch):
`r` is a candidate, its level is `>= pct`, its level is the smallest such
level, and among candidates of equal level `r` is the most severe. -/
def TightestUpperBound (s : Settings) (pct : Int) (r : State × Int) : Prop :=
  r ∈ candidates s ∧ pct ≤ r.2 ∧
    ∀ p ∈ candidates s, pct ≤ p.2 →
      r.2 ≤ p.2 ∧ (p.2 = r.2 → severity p.1 ≤ severity r.1)

/-- Notification urgency, from `notify_rust::Urgency`. -/
inductive Urgency where
  | Low
  | Normal
  | Critical
deriving DecidableEq

/-- The observable side effect of one `notify_cmd` call. -/
inductive Action where
  | popup (summary : String) (urgency : Urgency) (pct : Int)
  | runCmd (cmd : String)
deriving DecidableEq

/-- Model of `notification.show()` in the source; the external display outcome
is the parameter `showRes`.  On success, the performed action is the popup
with the chosen summary and urgency (the body carries the percentage). -/
def showPopup (showRes : Except String Unit) (summary : String) (u : Urgency)
    (pct : Int) : Except String (Option Action) :=
  match showRes with
  | .ok _ => .ok (some (.popup summary u pct))
  | .error e => .error e

/-- Model of `notify_cmd`, with the outcomes of the two external effects
(`show()` and `Command::spawn()`) as parameters.  `Warning`, `Critical` and
`Full` set the summary (and, for `Critical`, critical urgency) and show the
popup; `Danger` spawns the danger command when one is configured and returns
`Ok(())` without further action otherwise; every other state (`Charging`,
`Discharging`) hits the `_ => return Ok(())` arm. -/
def notify_cmd (showRes spawnRes : Except String Unit) (s : Settings)
    (state : State) (pct : Int) : Except String (Option Action) :=
  match state with
  | .Warning => showPopup showRes s.warningmsg .Normal pct
  | .Critical => showPopup showRes s.criticalmsg .Critical pct
  | .Full => showPopup showRes s.fullmsg .Normal pct
  | .Danger =>
    match s.dangercmd with
    | some cmd =>
      match spawnRes with
      | .ok _ => .ok (some (.runCmd cmd))
      | .error e => .error e
    | none => .ok none
  | _ => .ok none

/-- Model of the notification step at the end of each poll cycle in `main`:
on a state change, `notify_cmd(...)?` runs and then `state = new_state`.
The `?` operator propagates a notification error out of `main` (returned as
`Except.error`), in which case the assignment to `state` is never reached. -/
def loopStep (showRes spawnRes : Except String Unit) (s : Settings)
    (state new : State) (pct : Int) : Except String State :=
  if new ≠ state then
    match notify_cmd showRes spawnRes s new pct with
    | .error e => .error e
    | .ok _ => .ok new
  else .ok state

/-- Bit length (number of binary digits), with explicit fuel so that the
recursion is structural and the kernel can evaluate it. -/
def bitlen : Nat → Nat → Nat
  | 0, _ => 0
  | fuel + 1, n => if n = 0 then 0 else bitlen fuel (n / 2) + 1

/-- Round the non-negative rational `p / q` (with `q ≠ 0`) to the nearest
IEEE-754 binary64 value, ties to even, returned as an exact rational
`(num, den)` with `den` a power of two.  This is the exact semantics of the
`f64` division and multiplication in `main` for operands in the normal range
(all values arising here are far from overflow and from subnormals).  The
exponent `E = floor(log2 (p/q))` equals `bp - bq - adj` where `bp`, `bq` are
the bit lengths and `adj` is `0` when `p / q ≥ 2 ^ (bp - bq)` and `1`
otherwise; the integer mantissa is `p / q * 2 ^ (52 - E)` rounded half to
even, which lands in `[2^52, 2^53]` (the value is still the correctly
rounded double when the carry reaches `2^53`). -/
def roundF64 (p q : Nat) : Nat × Nat :=
  if p = 0 then (0, 1)
  else
    let bp := bitlen 128 p
    let bq := bitlen 128 q
    let adj := if p * 2 ^ bq ≥ q * 2 ^ bp then 0 else 1
    let num := p * 2 ^ (52 + bq + adj)
    let den := q * 2 ^ bp
    let m0 := num / den
    let r := num % den
    let m :=
      if 2 * r < den then m0
      else if den < 2 * r then m0 + 1
      else if m0 % 2 = 0 then m0 else m0 + 1
    if bp ≥ bq + adj + 52 then (m * 2 ^ (bp - bq - adj - 52), 1)
    else (m, 2 ^ (bq + adj + 52 - bp))

/-- Model of `(charge.0 / charge.1 * 100.0) as i32` in `main`, for
non-negative integer sums (each exactly representable in `f64`, being far
below `2^53`): the division and then the multiplication by `100.0` each round
once to nearest-even; `as i32` truncates toward zero and saturates.  When the
divisor is `0`: `0.0 / 0.0` is NaN, which `as i32` casts to `0`, and
`x / 0.0` for `x > 0` is positive infinity, which saturates to `i32::MAX`. -/
def percentAsI32 (a b : Nat) : Nat :=
  if b = 0 then (if a = 0 then 0 else 2147483647)
  else
    let x := roundF64 a b
    let y := roundF64 (x.1 * 100) x.2
    min (y.1 / y.2) 2147483647

/-- The pairwise-sum `reduce` over `(energy_now, energy_full)` in `main`
(addition of exactly-representable integers is exact in `f64`, so the sums
are modelled as `Nat` sums). -/
def chargeSums (bs : List Battery) : Nat × Nat :=
  bs.foldl (fun acc b => (acc.1 + b.energy_now, acc.2 + b.energy_full)) (0, 0)

/-- The `charge_percent` computation of `main` over a battery list. -/
def charge_percent (bs : List Battery) : Nat :=
  percentAsI32 (chargeSums bs).1 (chargeSums bs).2

/-- The aggregate `discharging` flag of `main`: true iff any battery reports
`Discharging`. -/
def aggDischarging (bs : List Battery) : Bool :=
  bs.any (fun b => b.status == BatteryStatus.Discharging)

/-- Modelled from the spec: the exact `floor(sum_now / sum_full * 100)`
(refinement target for the percentage computation). -/
def floorPercent (a b : Nat) : Nat := a * 100 / b

/-- A battery reading with the given `energy_now` and `energy_full`. -/
def bat (nw fl : Nat) : Battery :=
  { name := "BAT0", status := BatteryStatus.Discharging,
    energy_full := fl, energy_now := nw }

/-- Settings with `danger = critical = 5` (and default `warning = 15`). -/
def cfgEqualDC : Settings :=
  { Settings.default with danger := some 5, critical := some 5 }

/-- Settings with `warning = critical = 10`. -/
def cfgW10C10 : Settings :=
  { Settings.default with warning := some 10, critical := some 10 }

/-- Settings with only `danger` set, to the out-of-range value `150`. -/
def cfgDanger150 : Settings :=
  { Settings.default with
      warning := none
      critical := none
      danger := some 150 }

/-- Settings with `critical` set to the out-of-range value `101`. -/
def cfgCrit101 : Settings :=
  { Settings.default with critical := some 101 }

/-- Settings with every threshold unset. -/
def cfgAllUnset : Settings :=
  { Settings.default with
      warning := none
      critical := none
      danger := none
      full := none }

/-- Settings with `full = 90` (and the other defaults). -/
def cfgFull90 : Settings :=
  { Settings.default with full := some 90 }

/-- C2: on a non-discharging cycle the new state is `Full` exactly when a full
threshold is configured and the percentage is at or above it (boundary
included), and `Charging` otherwise; in particular with `full = 90` the
percentages 85, 90, 92 give `Charging`, `Full`, `Full`. -/
theorem charging_branch_full_or_charging :
    (∀ (s : Settings) (pct : Int),
      (chargeNewState s pct = State.Full ↔ ∃ f, s.full = some f ∧ f ≤ pct) ∧
      (chargeNewState s pct = State.Charging ↔
        ∀ f, s.full = some f → pct < f)) ∧
    (newState cfgFull90 false 85 = State.Charging ∧
      newState cfgFull90 false 90 = State.Full ∧
      newState cfgFull90 false 92 = State.Full) := by
  refine ⟨fun s pct => ?_, by decide⟩
  rcases h : s.full with _ | f
  · simp [chargeNewState, h]
  · simp only [chargeNewState, h]
    split_ifs with hf <;> simp_all

/-- C2 witness: the characterization at `full = 90` and percentage 92. -/
theorem charging_branch_full_or_charging_witness :
    (chargeNewState cfgFull90 92 = State.Full ↔
      ∃ f, cfgFull90.full = some f ∧ f ≤ 92) ∧
    (chargeNewState cfgFull90 92 = State.Charging ↔
      ∀ f, cfgFull90.full = some f → 92 < f) :=
  charging_branch_full_or_charging.1 cfgFull90 92

/-- C5: on the configuration with every threshold unset, `Settings::validate`
does not complete normally: it reaches the `unwrap()` of the first element of
the empty filtered threshold iterator and panics. -/
theorem validate_all_unset_panics :
    Settings.validate cfgAllUnset = VResult.panicEmpty := by decide

/-- C6: a battery list whose `energy_full` values sum to `0` produces a silent
numeric percentage, not an error: the float division yields NaN (when the
`energy_now` sum is also `0`), which the saturating `as i32` cast turns into
`0`, or positive infinity, which saturates to `i32::MAX`. -/
theorem aggregate_zero_full_silent :
    charge_percent [bat 0 0] = 0 ∧
    charge_percent [bat 5 0] = 2147483647 := by decide

/-- C9 counterexample: for a single battery with `energy_now = 29`,
`energy_full = 100`, the code's f64 pipeline gives percentage 28, while the
exact `floor(29 / 100 * 100)` is 29 — the claimed equality with the exact
floor fails. -/
theorem percent_not_exact_floor_cex :
    charge_percent [bat 29 100] = 28 ∧ floorPercent 29 100 = 29 ∧
    (28 : Nat) ≠ 29 := by decide

/-- C9 amended: the percentage is the truncation of the two-rounding f64
computation; it matches the exact floor on the spec's scenario — two
batteries (30, 100) and (40, 100) aggregate to 35 — but can fall one below
the exact floor, as at (29, 100) where it gives 28 against a floor of 29. -/
theorem percent_f64_model_values :
    charge_percent [bat 30 100, bat 40 100] = 35 ∧
    floorPercent 70 200 = 35 ∧
    charge_percent [bat 29 100] = 28 ∧
    charge_percent [bat 29 100] + 1 = floorPercent 29 100 := by decide

/-- C10: dispatching a notification for `Charging` or `Discharging` performs
no action and returns success for every settings value, every percentage and
every outcome of the external effects; any state whose dispatch performs an
action is `Warning`, `Critical`, `Full` or `Danger`. -/
theorem notify_noop_for_charging_discharging :
    ∀ (showRes spawnRes : Except String Unit) (s : Settings) (pct : Int),
      notify_cmd showRes spawnRes s State.Charging pct = Except.ok none ∧
      notify_cmd showRes spawnRes s State.Discharging pct = Except.ok none ∧
      (∀ (st : State) (a : Action),
        notify_cmd showRes spawnRes s st pct = Except.ok (some a) →
          st = State.Warning ∨ st = State.Critical ∨ st = State.Full ∨
            st = State.Danger) := by
  intro showRes spawnRes s pct
  refine ⟨rfl, rfl, fun st a h => ?_⟩
  cases st <;> simp_all [notify_cmd]

/-- C10 witness: concrete instance with both external effects failing. -/
theorem notify_noop_for_charging_discharging_witness :
    notify_cmd (Except.error "e1") (Except.error "e2") Settings.default
      State.Charging 42 = Except.ok none ∧
    notify_cmd (Except.error "e1") (Except.error "e2") Settings.default
      State.Discharging 42 = Except.ok none :=
  ⟨(notify_noop_for_charging_discharging (Except.error "e1")
      (Except.error "e2") Settings.default 42).1,
    (notify_noop_for_charging_discharging (Except.error "e1")
      (Except.error "e2") Settings.default 42).2.1⟩

/-- C7 counterexample: on the transition Discharging → Warning at 14% with a
failing display, the loop body returns the error — the `?` propagates it out
of `main`, ending the process — and no updated state is produced. -/
theorem notify_error_aborts_cycle_cex :
    loopStep (Except.error "Failed to show notification") (Except.ok ())
        Settings.default State.Discharging State.Warning 14 =
      Except.error "Failed to show notification" ∧
    ∀ st : State,
      loopStep (Except.error "Failed to show notification") (Except.ok ())
        Settings.default State.Discharging State.Warning 14 ≠
          Except.ok st := by
  refine ⟨rfl, fun st h => ?_⟩
  simp [loopStep, notify_cmd, showPopup] at h

/-- C7 amended: when the new state differs from the current one, a failing
`notify_cmd` makes the cycle return that error (fatal: `main` returns it and
the process exits; the state assignment is never reached), and only a
successful dispatch updates the state to the new state. -/
theorem notify_result_propagates :
    ∀ (showRes spawnRes : Except String Unit) (s : Settings)
      (st new : State) (pct : Int), new ≠ st →
      (∀ e, notify_cmd showRes spawnRes s new pct = Except.error e →
        loopStep showRes spawnRes s st new pct = Except.error e) ∧
      (∀ a, notify_cmd showRes spawnRes s new pct = Except.ok a →
        loopStep showRes spawnRes s st new pct = Except.ok new) := by
  intro showRes spawnRes s st new pct hne
  constructor <;> intro x hx <;> simp [loopStep, hne, hx]

/-- C7 witness: the amended theorem applied on a concrete failing cycle. -/
theorem notify_result_propagates_witness :
    loopStep (Except.error "boom") (Except.ok ()) Settings.default
      State.Discharging State.Warning 14 = Except.error "boom" :=
  (notify_result_propagates (Except.error "boom") (Except.ok ())
    Settings.default State.Discharging State.Warning 14 (by decide)).1
    "boom" rfl

/-- The `reduce` accumulator of the discharging branch never changes when the
percentage exceeds 100 and the accumulator's level is at most 100: a
replacement would need `pct ≤ item.2 ≤ accum.2 ≤ 100 < pct`. -/
theorem foldl_reduceStep_high (pct : Int) (hpct : 100 < pct) :
    ∀ (l : List (State × Int)) (acc : State × Int), acc.2 ≤ 100 →
      l.foldl (reduceStep pct) acc = acc := by
  intro l
  induction l with
  | nil => intro acc _; rfl
  | cons x xs ih =>
    intro acc hacc
    have hstep : reduceStep pct acc x = acc := by
      unfold reduceStep
      split_ifs with h
      · exfalso; omega
      · rfl
    rw [List.foldl_cons, hstep]
    exact ih acc hacc

/-- C8 counterexample: with the default thresholds and percentage 101 (no
candidate level is `>= 101`), the discharging branch yields `Discharging`,
not `Danger`. -/
theorem fallback_not_danger_cex :
    newState Settings.default true 101 = State.Discharging ∧
    State.Discharging ≠ State.Danger := by decide

/-- C8 amended: whenever the percentage exceeds 100, no candidate can replace
the initial `reduce` accumulator `(Discharging, 100)`, so the discharging
branch falls back to `Discharging` — the first candidate — for every
configuration. -/
theorem discharging_above_100_falls_back_to_discharging :
    ∀ (s : Settings) (pct : Int), 100 < pct →
      newState s true pct = State.Discharging := by
  intro s pct h
  have hfold := foldl_reduceStep_high pct h (candTail s)
    (State.Discharging, 100) (by norm_num)
  simp [newState, dischargeNewState, dischargeSelect, hfold]

/-- C8 witness: the amended theorem at percentage 150. -/
theorem discharging_above_100_witness :
    newState cfgFull90 true 150 = State.Discharging :=
  discharging_above_100_falls_back_to_discharging cfgFull90 150 (by decide)

/-- C3 counterexample: `danger = critical = 5` with `warning = 15` — two of
the three levels equal — is accepted by `Settings::validate` (the monotone
scan uses `>=`), contradicting the claim that validation then fails. -/
theorem validate_equal_danger_critical_accepted :
    Settings.validate cfgEqualDC = VResult.ok cfgEqualDC ∧
    cfgEqualDC.danger = cfgEqualDC.critical := by decide

/-- C4 counterexample: a configuration whose only set threshold is
`danger = 150` — outside `[0, 100]` — is accepted by `Settings::validate`:
the source range-checks warning, critical and full, but never danger. -/
theorem validate_danger_out_of_range_accepted :
    Settings.validate cfgDanger150 = VResult.ok cfgDanger150 ∧
    cfgDanger150.danger = some 150 := by decide

/-- C1: on every discharging cycle with percentage at most 100, the selected
candidate is the one with the smallest level `>= percentage` among the kept
pairs (Discharging at 100 plus the configured warning/critical/danger
levels), ties resolved toward the more severe state, and the new state is
that candidate's state; in particular with the default thresholds
(warning 15, critical 5, danger 2, full unset) the percentages 20, 14, 4, 1
give Discharging, Warning, Critical, Danger. -/
theorem discharging_selects_tightest_upper_bound :
    (∀ (s : Settings) (pct : Int), pct ≤ 100 →
      TightestUpperBound s pct (dischargeSelect s pct) ∧
      newState s true pct = (dischargeSelect s pct).1) ∧
    (newState Settings.default true 20 = State.Discharging ∧
      newState Settings.default true 14 = State.Warning ∧
      newState Settings.default true 4 = State.Critical ∧
      newState Settings.default true 1 = State.Danger) := by
  refine ⟨fun s pct hle => ⟨?_, rfl⟩, by decide⟩
  rcases hw : s.warning with _ | w <;> rcases hc : s.critical with _ | c <;>
    rcases hd : s.danger with _ | d <;>
      simp only [TightestUpperBound, candidates, candTail, dischargeSelect,
        hw, hc, hd] <;>
      simp [reduceStep] <;> (try split_ifs) <;>
      (try simp_all [severity]) <;> omega

/-- C1 witness: the characterization applied at the default thresholds and
percentage 20. -/
theorem discharging_selects_tightest_upper_bound_witness :
    TightestUpperBound Settings.default 20
      (dischargeSelect Settings.default 20) ∧
    newState Settings.default true 20 =
      (dischargeSelect Settings.default 20).1 :=
  discharging_selects_tightest_upper_bound.1 Settings.default 20 (by decide)

/-- C3 amended: with danger, critical and warning all set (in range, full
unset, interval valid), `Settings::validate` succeeds if and only if
`danger ≤ critical < warning`: equality between danger and critical is
accepted (the scan uses `>=`), while `warning = critical` — in particular
both equal to 10 — is rejected with the ordering error. -/
theorem validate_all_set_iff :
    (∀ d c w : Int, 0 ≤ d → d ≤ 100 → 0 ≤ c → c ≤ 100 → 0 ≤ w → w ≤ 100 →
      (Settings.validate { Settings.default with
          danger := some d, critical := some c, warning := some w } =
        VResult.ok { Settings.default with
          danger := some d, critical := some c, warning := some w } ↔
        d ≤ c ∧ c < w)) ∧
    Settings.validate cfgW10C10 =
      VResult.err ConfigError.warningLeCritical := by
  refine ⟨fun d c w h0d h1d h0c h1c h0w h1w => ?_, by decide⟩
  simp only [Settings.validate, okRange, warningLeCrit, thresholdPairs,
    scanPairs, Settings.default]
  simp only [List.filterMap_cons, Option.map_some', Option.map_none',
    List.filterMap_nil]
  split_ifs <;>
    first
      | (simp_all; omega)
      | (simp_all; done)
      | (simp_all [scanPairs]; split_ifs <;> simp_all; omega)

/-- C3 witness: the amended characterization at the default thresholds
(danger 2, critical 5, warning 15). -/
theorem validate_all_set_iff_witness :
    Settings.validate { Settings.default with
        danger := some 2, critical := some 5, warning := some 15 } =
      VResult.ok { Settings.default with
        danger := some 2, critical := some 5, warning := some 15 } ↔
      (2 : Int) ≤ 5 ∧ (5 : Int) < 15 :=
  validate_all_set_iff.1 2 5 15 (by decide) (by decide) (by decide)
    (by decide) (by decide) (by decide)

/-- C4 amended: `Settings::validate` never accepts a configuration whose
warning, critical or full level lies outside `[0, 100]` (the source checks
exactly these three ranges; the danger level is not range-checked, see the
counterexample). -/
theorem validate_rejects_out_of_range_wcf :
    ∀ (s : Settings) (v : Int),
      (s.warning = some v ∨ s.critical = some v ∨ s.full = some v) →
      (v < 0 ∨ 100 < v) → ∀ t, Settings.validate s ≠ VResult.ok t := by
  intro s v hset hout t hok
  unfold Settings.validate at hok
  split_ifs at hok with hw hc hf hs hwc
  rcases hset with h | h | h
  · rw [h] at hw; simp [okRange] at hw; omega
  · rw [h] at hc; simp [okRange] at hc; omega
  · rw [h] at hf; simp [okRange] at hf; omega

/-- C4 witness: the amended theorem at `critical = 101`. -/
theorem validate_rejects_out_of_range_wcf_witness :
    Settings.validate cfgCrit101 ≠ VResult.ok cfgCrit101 :=
  validate_rejects_out_of_range_wcf cfgCrit101 101 (Or.inr (Or.inl rfl))
    (by decide) cfgCrit101

end Batsignal
